import Mathlib

/-!
Verification development for the matrix-client repository.

The embedding models the session-and-event control core in src/app.rs:
the authentication state machine (restore_session, login, auth), the
serialized session file, the listener loops feeding the bounded mpsc
channel, the event-handler registrations, the background sync task, and
the fan-in channel itself as a small step relation.

External collaborators (the matrix SDK client, the filesystem, serde)
are modelled at their interface boundary via an environment record whose
fields describe how each collaborator call responds during one run.
-/

namespace MatrixClient

/-! ## Payload types of the SDK-native stream items (opaque to this core) -/

/-- Opaque stand-in for matrix_sdk VerificationState stream items. -/
structure VerificationState where
  state : Nat
deriving DecidableEq

/-- Opaque stand-in for OriginalSyncRoomMessageEvent items. -/
structure SyncRoomMessage where
  body : Nat
deriving DecidableEq

/-- Opaque stand-in for ToDeviceKeyVerificationRequestEvent items. -/
structure VerificationRequest where
  reqId : Nat
deriving DecidableEq

/-- Opaque stand-in for sync_service State stream items. -/
structure SyncServiceState where
  state : Nat
deriving DecidableEq

/-- Opaque stand-in for a VectorDiff over room_list_service rooms. -/
structure RoomDiff where
  diff : Nat
deriving DecidableEq

/-- Opaque stand-in for matrix_sdk Error values. -/
structure SdkError where
  code : Nat
deriving DecidableEq

/-- The internal event union from src/app.rs (enum Event), one
constructor per Listener kind, in source order. -/
inductive Event where
  | VerificationState (vs : MatrixClient.VerificationState)
  | SyncRoom (m : SyncRoomMessage)
  | VerificationRequest (r : MatrixClient.VerificationRequest)
  | SyncServiceState (s : MatrixClient.SyncServiceState)
  | RoomDiff (ds : List MatrixClient.RoomDiff)
  | FatalMatrixErr (e : SdkError)
deriving DecidableEq

/-! ## Session record and its on-disk serialization

The session file holds a serialized MatrixSession (access token, device
id, user id, per the spec data model).  Byte strings are modelled as
lists of naturals; the codec length-prefixes each field, so arbitrary
field contents round-trip. -/

/-- The serializable session record (matrix_auth MatrixSession): access
token, device id, user id, each an opaque byte string. -/
structure MatrixSession where
  accessToken : List Nat
  deviceId : List Nat
  userId : List Nat
deriving DecidableEq

/-- The kind-tagged auth session of the SDK (enum AuthSession); this
core only accepts the password-based Matrix kind. -/
inductive AuthSession where
  | Matrix (s : MatrixSession)
  | other
deriving DecidableEq

/-- Serialize one field: length prefix followed by the bytes. -/
def encodeField (f : List Nat) : List Nat :=
  f.length :: f

/-- Serialize a session record into session-file bytes. -/
def encodeSession (s : MatrixSession) : List Nat :=
  encodeField s.accessToken ++ (encodeField s.deviceId ++ encodeField s.userId)

/-- Parse one length-prefixed field, returning it and the remaining bytes. -/
def decodeField : List Nat → Option (List Nat × List Nat)
  | [] => none
  | n :: rest => if n ≤ rest.length then some (rest.take n, rest.drop n) else none

/-- Parse session-file bytes back into a session record; rejects
trailing garbage and truncated input. -/
def decodeSession (bs : List Nat) : Option MatrixSession :=
  match decodeField bs with
  | none => none
  | some (tok, bs1) =>
    match decodeField bs1 with
    | none => none
    | some (dev, bs2) =>
      match decodeField bs2 with
      | none => none
      | some (uid, bs3) =>
        if bs3 = [] then some ⟨tok, dev, uid⟩ else none

/-! ## The Session Manager state machine (App::auth / login / restore_session) -/

/-- Collaborator calls observable in a run of auth; used to count login
invocations. -/
inductive Action where
  | restoreCall
  | loginCall
deriving DecidableEq

/-- Boolean recognizer for login invocations in a trace. -/
def isLoginCall : Action → Bool
  | .loginCall => true
  | .restoreCall => false

/-- Number of login invocations recorded in a trace. -/
def loginCalls (t : List Action) : Nat :=
  t.countP isLoginCall

/-- Error identities, one per anyhow context string in src/app.rs. -/
inductive AppError where
  | readSession
  | parseSessionYaml
  | restoreRejected
  | matrixAuth
  | noSessionAfterLogin
  | unknownSessionKind
  | writeSession
deriving DecidableEq

/-- Result of a fallible operation that may also panic (todo! in the
source is a panic, not a return). -/
inductive Outcome (α : Type) where
  | ok (a : α)
  | err (e : AppError)
  | panicked
deriving DecidableEq

/-- Mutable state threaded through one run: the session file contents
(none when the file does not exist), the in-memory auth session held by
the client connection, and the trace of collaborator calls made so far. -/
structure St where
  file : Option (List Nat)
  clientSession : Option AuthSession
  trace : List Action
deriving DecidableEq

/-- How the external collaborators respond during this run: whether the
login_username call succeeds, what session the client auth context then
holds, which restored session records the client accepts, and whether
the filesystem write/read calls succeed. -/
structure ClientEnv where
  loginOk : Bool
  sessionAfterLogin : Option AuthSession
  restoreAccepts : MatrixSession → Bool
  writeOk : Bool
  readOk : Bool

/-- App::restore_session: return false when no session file exists;
otherwise read it, parse it, and hand the record to the client.  Every
failure is an error to the caller; the file itself is never written. -/
def restore_session (env : ClientEnv) (st : St) : Except AppError Bool × St :=
  let st := { st with trace := st.trace ++ [Action.restoreCall] }
  match st.file with
  | none => (.ok false, st)
  | some bs =>
    if env.readOk then
      match decodeSession bs with
      | none => (.error .parseSessionYaml, st)
      | some s =>
        if env.restoreAccepts s then
          (.ok true, { st with clientSession := some (.Matrix s) })
        else (.error .restoreRejected, st)
    else (.error .readSession, st)

/-- App::login: call login_username; on success read the session held
by the client, require the Matrix kind, serialize it and write the
session file; the function ends in todo!(), so the fully successful
path panics instead of returning Ok. -/
def login (env : ClientEnv) (st : St) : Outcome Unit × St :=
  let st := { st with trace := st.trace ++ [Action.loginCall] }
  if env.loginOk then
    let st := { st with clientSession := env.sessionAfterLogin }
    match env.sessionAfterLogin with
    | none => (.err .noSessionAfterLogin, st)
    | some (.Matrix s) =>
      if env.writeOk then
        (.panicked, { st with file := some (encodeSession s) })
      else (.err .writeSession, st)
    | some .other => (.err .unknownSessionKind, st)
  else (.err .matrixAuth, st)

/-- App::auth: attempt restore; a successful restore returns Ok at
once, while both a missing file and any restore error fall through to
exactly one login attempt. -/
def auth (env : ClientEnv) (st : St) : Outcome Unit × St :=
  match restore_session env st with
  | (.ok true, st1) => (.ok (), st1)
  | (.ok false, st1) => login env st1
  | (.error _, st1) => login env st1

/-! ## Listener loops and event-handler tasks

A listener run is modelled over a finite prefix of its subscription
stream, together with the behavior of the channel consumer: budget none
means the consuming side is never closed during the run, budget some k
means the consumer accepts exactly k more hand-offs and every later
send fails (mpsc closure is permanent).  The loop from src/app.rs sends
each item and breaks on the first failed send; it also completes when
the stream itself ends. -/

/-- Why a listener loop run ended. -/
inductive ExitReason where
  | streamEnded
  | channelClosed
deriving DecidableEq

/-- The while-let send-or-break loop shared by the room-list,
sync-state and verification listeners in src/app.rs: forward each
stream item into the channel, break when a hand-off fails. -/
def listenerLoop {α : Type} (wrap : α → Event) : List α → Option Nat → List Event × ExitReason
  | [], _ => ([], .streamEnded)
  | _ :: _, some 0 => ([], .channelClosed)
  | x :: rest, some (k + 1) =>
    let r := listenerLoop wrap rest (some k)
    (wrap x :: r.1, r.2)
  | x :: rest, none =>
    let r := listenerLoop wrap rest none
    (wrap x :: r.1, r.2)

/-- App::verification_listener: the verification-state stream loop. -/
def verification_listener (items : List VerificationState) (budget : Option Nat) :
    List Event × ExitReason :=
  listenerLoop Event.VerificationState items budget

/-- App::sync_state_listener: the sync-service-state stream loop. -/
def sync_state_listener (items : List SyncServiceState) (budget : Option Nat) :
    List Event × ExitReason :=
  listenerLoop Event.SyncServiceState items budget

/-- App::room_list_listener: the room-list diff stream loop. -/
def room_list_listener (items : List (List RoomDiff)) (budget : Option Nat) :
    List Event × ExitReason :=
  listenerLoop Event.RoomDiff items budget

/-- The registered event handlers from App::register_event_handlers:
every stream item is handled; a failed send logs a warning and drops
the event, and the handler keeps running for later items.  Returns the
delivered events and the number of warnings logged. -/
def handlerRun {α : Type} (wrap : α → Event) : List α → Option Nat → List Event × Nat
  | [], _ => ([], 0)
  | _ :: rest, some 0 =>
    let r := handlerRun wrap rest (some 0)
    (r.1, r.2 + 1)
  | x :: rest, some (k + 1) =>
    let r := handlerRun wrap rest (some k)
    (wrap x :: r.1, r.2)
  | x :: rest, none =>
    let r := handlerRun wrap rest none
    (wrap x :: r.1, r.2)

/-- The OriginalSyncRoomMessageEvent handler registration. -/
def sync_room_handler (items : List SyncRoomMessage) (budget : Option Nat) :
    List Event × Nat :=
  handlerRun Event.SyncRoom items budget

/-- The ToDeviceKeyVerificationRequestEvent handler registration. -/
def verification_request_handler (items : List VerificationRequest) (budget : Option Nat) :
    List Event × Nat :=
  handlerRun Event.VerificationRequest items budget

/-- How a spawned task ends in the model; the source tasks under
consideration contain no panicking operation after spawn. -/
inductive TaskExit where
  | finished
  | panicked
deriving DecidableEq

/-- The spawned background sync task in App::setup_sync: if the sync
loop returns an error, attempt to send exactly one FatalMatrixErr event
and discard the send result; then the task ends. -/
def syncTask (res : Except SdkError Unit) (budget : Option Nat) : List Event × TaskExit :=
  match res with
  | .ok _ => ([], .finished)
  | .error e =>
    match budget with
    | some 0 => ([], .finished)
    | _ => ([Event.FatalMatrixErr e], .finished)

/-! ## The bounded fan-in channel (mpsc::channel in App::start)

N producers feed one bounded multi-producer/single-consumer channel
drained by the Controller.  A state holds the remaining items of every
producer, the queue contents, and what the consumer has received; a
step either enqueues the next item of a producer (only when the queue
is below capacity — a full channel blocks the producer, it never drops)
or dequeues the front item to the consumer.  Items are tagged with
their producer so provenance is visible in the delivery multiset. -/

/-- A configuration of the fan-in system with N producers. -/
structure FanIn (N : Nat) where
  pending : Fin N → List Nat
  chan : List (Fin N × Nat)
  consumed : List (Fin N × Nat)

/-- One scheduling step of the fan-in system under capacity cap. -/
inductive FanStep (cap : Nat) {N : Nat} : FanIn N → FanIn N → Prop where
  | produce (s : FanIn N) (i : Fin N) (x : Nat) (rest : List Nat)
      (hfull : s.chan.length < cap) (hp : s.pending i = x :: rest) :
      FanStep cap s ⟨Function.update s.pending i rest, s.chan ++ [(i, x)], s.consumed⟩
  | consume (s : FanIn N) (x : Fin N × Nat) (rest : List (Fin N × Nat))
      (hc : s.chan = x :: rest) :
      FanStep cap s ⟨s.pending, rest, s.consumed ++ [x]⟩

/-- The multiset of not-yet-enqueued items, tagged by producer. -/
def pendingMS {N : Nat} (s : FanIn N) : Multiset (Fin N × Nat) :=
  Finset.univ.sum fun i => Multiset.map (fun x => (i, x)) (↑(s.pending i) : Multiset Nat)

/-- Every item of the system, wherever it currently sits. -/
def totalMS {N : Nat} (s : FanIn N) : Multiset (Fin N × Nat) :=
  pendingMS s + ↑s.chan + ↑s.consumed

/-- Multiset.card as an additive monoid hom, to push through Finset sums. -/
def cardAddHom (γ : Type) : Multiset γ →+ Nat :=
  { toFun := Multiset.card, map_zero' := rfl, map_add' := Multiset.card_add }

/-! ## Concrete inputs used by the witnesses -/

/-- A sample session record. -/
def sampleSession : MatrixSession :=
  ⟨[1, 2], [3], [4]⟩

/-- Fresh process state: no session file, no client session, empty trace. -/
def st0 : St :=
  ⟨none, none, []⟩

/-- State whose session file holds bytes that do not parse (a length
prefix of five with no following bytes). -/
def stJunk : St :=
  ⟨some [5], none, []⟩

/-- Environment where login succeeds with a Matrix session and the
session write succeeds. -/
def envLoginOk : ClientEnv :=
  ⟨true, some (.Matrix sampleSession), fun _ => true, true, true⟩

/-- Environment where login succeeds with a Matrix session but the
session write fails. -/
def envWriteFail : ClientEnv :=
  ⟨true, some (.Matrix sampleSession), fun _ => true, false, true⟩

/-- Environment where login succeeds but the resulting session is not
of the Matrix kind. -/
def envOther : ClientEnv :=
  ⟨true, some .other, fun _ => true, true, true⟩

/-- Environment where the login call itself fails. -/
def envLoginFail : ClientEnv :=
  ⟨false, none, fun _ => true, true, true⟩

/-- Environment for a restore-only run: reads succeed and the client
accepts any restored record. -/
def envRestore : ClientEnv :=
  ⟨false, none, fun _ => true, true, true⟩

/-- Initial fan-in state: producer 0 holds item 10, producer 1 holds item 20. -/
abbrev fanInit : FanIn 2 :=
  ⟨fun i => if i = 0 then [10] else [20], [], []⟩

/-- After producer 0 enqueues its item. -/
abbrev fanS1 : FanIn 2 :=
  ⟨Function.update fanInit.pending 0 [], fanInit.chan ++ [(0, 10)], fanInit.consumed⟩

/-- After the consumer drains that item. -/
abbrev fanS2 : FanIn 2 :=
  ⟨fanS1.pending, [], fanS1.consumed ++ [(0, 10)]⟩

/-- After producer 1 enqueues its item. -/
abbrev fanS3 : FanIn 2 :=
  ⟨Function.update fanS2.pending 1 [], fanS2.chan ++ [(1, 20)], fanS2.consumed⟩

/-- After the consumer drains the second item: all queues empty. -/
abbrev fanS4 : FanIn 2 :=
  ⟨fanS3.pending, [], fanS3.consumed ++ [(1, 20)]⟩

/-! ## Invariants of the session-manager embedding -/

theorem restore_session_file_eq (env : ClientEnv) (st : St) :
    (restore_session env st).2.file = st.file := by
  unfold restore_session
  dsimp only
  repeat' split
  all_goals rfl

theorem restore_session_trace_eq (env : ClientEnv) (st : St) :
    (restore_session env st).2.trace = st.trace ++ [Action.restoreCall] := by
  unfold restore_session
  dsimp only
  repeat' split
  all_goals rfl

theorem login_trace_eq (env : ClientEnv) (st : St) :
    (login env st).2.trace = st.trace ++ [Action.loginCall] := by
  unfold login
  dsimp only
  repeat' split
  all_goals rfl

theorem loginCalls_append (t u : List Action) :
    loginCalls (t ++ u) = loginCalls t + loginCalls u := by
  simp [loginCalls, List.countP_append]

theorem loginCalls_restoreCall : loginCalls [Action.restoreCall] = 0 := by
  simp [loginCalls, List.countP, List.countP.go, isLoginCall]

theorem loginCalls_loginCall : loginCalls [Action.loginCall] = 1 := by
  simp [loginCalls, List.countP, List.countP.go, isLoginCall]

theorem auth_eq_login_of_restore_ne (env : ClientEnv) (st : St)
    (h : (restore_session env st).1 ≠ Except.ok true) :
    auth env st = login env (restore_session env st).2 := by
  unfold auth
  rcases hr : restore_session env st with ⟨r, st1⟩
  rw [hr] at h
  cases r with
  | ok b =>
    cases b with
    | true => exact absurd rfl h
    | false => rfl
  | error e => rfl

theorem login_write_fail_eq (env : ClientEnv) (st : St) (s : MatrixSession)
    (h1 : env.loginOk = true) (h2 : env.sessionAfterLogin = some (.Matrix s))
    (h3 : env.writeOk = false) :
    login env st =
      (.err .writeSession, ⟨st.file, some (.Matrix s), st.trace ++ [Action.loginCall]⟩) := by
  simp [login, h1, h2, h3]

theorem login_write_ok_eq (env : ClientEnv) (st : St) (s : MatrixSession)
    (h1 : env.loginOk = true) (h2 : env.sessionAfterLogin = some (.Matrix s))
    (h3 : env.writeOk = true) :
    login env st =
      (.panicked,
        ⟨some (encodeSession s), some (.Matrix s), st.trace ++ [Action.loginCall]⟩) := by
  simp [login, h1, h2, h3]

theorem login_unknown_kind_eq (env : ClientEnv) (st : St)
    (h1 : env.loginOk = true) (h2 : env.sessionAfterLogin = some .other) :
    login env st =
      (.err .unknownSessionKind, ⟨st.file, some .other, st.trace ++ [Action.loginCall]⟩) := by
  simp [login, h1, h2]

/-! ## Serialization round-trip -/

theorem decodeField_encodeField (f rest : List Nat) :
    decodeField (encodeField f ++ rest) = some (f, rest) := by
  simp [encodeField, decodeField, List.take_left, List.drop_left]

theorem decodeField_encodeField_nil (f : List Nat) :
    decodeField (encodeField f) = some (f, []) := by
  have h := decodeField_encodeField f []
  simpa using h

theorem decodeSession_encodeSession (s : MatrixSession) :
    decodeSession (encodeSession s) = some s := by
  simp [decodeSession, encodeSession, decodeField_encodeField, decodeField_encodeField_nil]

/-! ## Listener lemmas -/

theorem listenerLoop_closed_iff {α : Type} (wrap : α → Event) :
    ∀ (items : List α) (budget : Option Nat),
      (listenerLoop wrap items budget).2 = .channelClosed ↔
        ∃ k, budget = some k ∧ k < items.length := by
  intro items
  induction items with
  | nil =>
    intro budget
    simp [listenerLoop]
  | cons x rest ih =>
    intro budget
    match budget with
    | none =>
      simp only [listenerLoop, ih]
      constructor
      · rintro ⟨k, hk, _⟩
        exact absurd hk (by simp)
      · rintro ⟨k, hk, _⟩
        exact absurd hk (by simp)
    | some 0 =>
      simp [listenerLoop]
    | some (k + 1) =>
      simp only [listenerLoop, ih]
      constructor
      · rintro ⟨j, hj, hlt⟩
        refine ⟨k + 1, rfl, ?_⟩
        have hjk : k = j := by simpa using hj
        subst hjk
        simpa using Nat.succ_lt_succ hlt
      · rintro ⟨j, hj, hlt⟩
        have hjk : k + 1 = j := by simpa using hj
        subst hjk
        exact ⟨k, rfl, by simpa using Nat.lt_of_succ_lt_succ hlt⟩

theorem handlerRun_some {α : Type} (wrap : α → Event) :
    ∀ (items : List α) (k : Nat),
      handlerRun wrap items (some k) = ((items.take k).map wrap, items.length - k) := by
  intro items
  induction items with
  | nil =>
    intro k
    simp [handlerRun]
  | cons x rest ih =>
    intro k
    match k with
    | 0 => simp [handlerRun, ih]
    | k + 1 => simp [handlerRun, ih, Nat.succ_sub_succ]

/-! ## Fan-in conservation -/

theorem fanStep_total {cap N : Nat} {s t : FanIn N} (h : FanStep cap s t) :
    totalMS t = totalMS s := by
  cases h with
  | produce i x rest hfull hp =>
    have hupd : ∀ j, Multiset.map (fun y => (j, y))
        (↑(Function.update s.pending i rest j) : Multiset Nat) =
        Function.update
          (fun j => Multiset.map (fun y => (j, y)) (↑(s.pending j) : Multiset Nat)) i
          (Multiset.map (fun y => (i, y)) (↑rest : Multiset Nat)) j := by
      intro j
      by_cases hj : j = i
      · subst hj
        simp
      · simp [Function.update_noteq hj]
    unfold totalMS pendingMS
    dsimp only
    rw [Finset.sum_congr rfl fun j _ => hupd j,
      Finset.sum_update_of_mem (Finset.mem_univ i),
      Finset.sum_eq_add_sum_diff_singleton (Finset.mem_univ i)
        fun j => Multiset.map (fun y => (j, y)) (↑(s.pending j) : Multiset Nat),
      hp]
    have hchan : (↑(s.chan ++ [(i, x)]) : Multiset (Fin N × Nat)) = ↑s.chan + {(i, x)} := by
      rw [← Multiset.coe_add, Multiset.coe_singleton]
    rw [hchan]
    have hcons : Multiset.map (fun y => (i, y)) (↑(x :: rest) : Multiset Nat) =
        {(i, x)} + Multiset.map (fun y => (i, y)) (↑rest : Multiset Nat) := by
      rw [← Multiset.cons_coe, Multiset.map_cons, Multiset.singleton_add]
    rw [hcons]
    abel
  | consume x rest hc =>
    unfold totalMS
    rw [hc]
    have h1 : (↑(s.consumed ++ [x]) : Multiset (Fin N × Nat)) = ↑s.consumed + {x} := by
      rw [← Multiset.coe_add, Multiset.coe_singleton]
    have h2 : (↑(x :: rest) : Multiset (Fin N × Nat)) = {x} + ↑rest := by
      rw [Multiset.singleton_add, Multiset.cons_coe]
    have h3 : pendingMS (⟨s.pending, rest, s.consumed ++ [x]⟩ : FanIn N) = pendingMS s := rfl
    rw [h1, h2, h3]
    abel

theorem fanRun_total {cap N : Nat} {a b : FanIn N}
    (h : Relation.ReflTransGen (FanStep cap) a b) : totalMS b = totalMS a := by
  induction h with
  | refl => rfl
  | tail _ hstep ih => rw [fanStep_total hstep, ih]

theorem fanChain : Relation.ReflTransGen (FanStep 1) fanInit fanS4 :=
  Relation.ReflTransGen.head (FanStep.produce fanInit 0 10 [] (by decide) (by decide))
    (Relation.ReflTransGen.head (FanStep.consume fanS1 (0, 10) [] rfl)
      (Relation.ReflTransGen.head (FanStep.produce fanS2 1 20 [] (by decide) (by decide))
        (Relation.ReflTransGen.head (FanStep.consume fanS3 (1, 20) [] rfl)
          Relation.ReflTransGen.refl)))

/-! ## Claim theorems -/

/-- C1: the claim says that whenever the login call succeeds (and
persistence is then attempted) establish reaches Authenticated and
returns success.  The code refutes this: in a run where login succeeds
with a password-based session and the session write succeeds, App::login
reaches todo!() and panics, so auth never returns Ok.  This theorem
evaluates the embedding at that failing input. -/
theorem c1_login_success_panics :
    (auth envLoginOk st0).1 = Outcome.panicked ∧
    (auth envLoginOk st0).1 ≠ Outcome.ok () := by
  decide

/-- C2 counterexample: the claim says a session-write failure after a
successful login leaves establish successful.  At the concrete input
where login succeeds and the write fails, auth returns the writeSession
error — establish fails, refuting the claim as stated. -/
theorem c2_counterexample :
    (auth envWriteFail st0).1 = Outcome.err AppError.writeSession ∧
    (auth envWriteFail st0).1 ≠ Outcome.ok () := by
  decide

/-- C2 amended: if, after a successful login yielding a Matrix-kind
session, writing the session file fails, then establish fails with the
writeSession error; the in-memory client session set by the login is
kept and the session file is left unchanged, but the error is
propagated to the caller rather than downgraded to a warning. -/
theorem c2_amended_write_failure_fails_establish (env : ClientEnv) (st : St)
    (s : MatrixSession)
    (h1 : env.loginOk = true) (h2 : env.sessionAfterLogin = some (.Matrix s))
    (h3 : env.writeOk = false) (h4 : (restore_session env st).1 ≠ Except.ok true) :
    (auth env st).1 = Outcome.err AppError.writeSession ∧
    (auth env st).2.clientSession = some (.Matrix s) ∧
    (auth env st).2.file = st.file := by
  have hal := auth_eq_login_of_restore_ne env st h4
  have hlw := login_write_fail_eq env (restore_session env st).2 s h1 h2 h3
  rw [hal, hlw]
  refine ⟨rfl, rfl, ?_⟩
  simpa using restore_session_file_eq env st

/-- C2 witness: the amended statement discharged at the concrete
write-failure run. -/
theorem c2_amended_witness :
    envWriteFail.loginOk = true ∧
    envWriteFail.sessionAfterLogin = some (.Matrix sampleSession) ∧
    envWriteFail.writeOk = false ∧
    (restore_session envWriteFail st0).1 ≠ Except.ok true ∧
    ((auth envWriteFail st0).1 = Outcome.err AppError.writeSession ∧
      (auth envWriteFail st0).2.clientSession = some (.Matrix sampleSession) ∧
      (auth envWriteFail st0).2.file = st0.file) := by
  have hne : (restore_session envWriteFail st0).1 ≠ Except.ok true := by
    simp [show (restore_session envWriteFail st0).1 = Except.ok false from rfl]
  exact ⟨rfl, rfl, rfl, hne,
    c2_amended_write_failure_fails_establish envWriteFail st0 sampleSession rfl rfl rfl hne⟩

/-- C3 counterexample: the claim says channel closure is the sole
termination condition of every Listener task.  The verification-state
listener run over a stream that ends, with the channel never closed,
terminates with reason streamEnded — a clean termination without any
failed hand-off, refuting the only-if direction of the claim. -/
theorem c3_counterexample :
    verification_listener [⟨0⟩] none =
      ([Event.VerificationState ⟨0⟩], ExitReason.streamEnded) ∧
    ExitReason.streamEnded ≠ ExitReason.channelClosed := by
  decide

/-- C3 amended: for the three subscription-loop listeners (verification
state, sync-service state, room-list diffs) a run exits through the
channel-closed break if and only if the consuming side closes before
the stream prefix is exhausted; otherwise the loop runs to the end of
the stream.  The two event-handler kinds and the sync task are not
loops and never terminate through channel closure. -/
theorem c3_amended_loop_exit (vs : List VerificationState) (ss : List SyncServiceState)
    (rd : List (List RoomDiff)) (b1 b2 b3 : Option Nat) :
    ((verification_listener vs b1).2 = ExitReason.channelClosed ↔
      ∃ k, b1 = some k ∧ k < vs.length) ∧
    ((sync_state_listener ss b2).2 = ExitReason.channelClosed ↔
      ∃ k, b2 = some k ∧ k < ss.length) ∧
    ((room_list_listener rd b3).2 = ExitReason.channelClosed ↔
      ∃ k, b3 = some k ∧ k < rd.length) :=
  ⟨listenerLoop_closed_iff Event.VerificationState vs b1,
   listenerLoop_closed_iff Event.SyncServiceState ss b2,
   listenerLoop_closed_iff Event.RoomDiff rd b3⟩

/-- C4: when the background sync loop ends with an error and the
channel consumer is still alive, the spawned task emits exactly one
FatalMatrixErr event and finishes cleanly (the send result is
discarded, so the task never panics). -/
theorem c4_sync_error_single_event (e : SdkError) (budget : Option Nat)
    (h : budget ≠ some 0) :
    syncTask (.error e) budget = ([Event.FatalMatrixErr e], TaskExit.finished) ∧
    (syncTask (.error e) budget).1.length = 1 ∧
    (syncTask (.error e) budget).2 = TaskExit.finished := by
  cases budget with
  | none => exact ⟨rfl, rfl, rfl⟩
  | some k =>
    cases k with
    | zero => exact absurd rfl h
    | succ k => exact ⟨rfl, rfl, rfl⟩

/-- C4 witness: the sync-error theorem discharged at a concrete error
with an open channel. -/
theorem c4_witness :
    (none : Option Nat) ≠ some 0 ∧
    (syncTask (.error ⟨7⟩) none = ([Event.FatalMatrixErr ⟨7⟩], TaskExit.finished) ∧
      (syncTask (.error ⟨7⟩) none).1.length = 1 ∧
      (syncTask (.error ⟨7⟩) none).2 = TaskExit.finished) :=
  ⟨by decide, c4_sync_error_single_event ⟨7⟩ none (by decide)⟩

/-- C5: whenever restore does not succeed (missing file, unparsable
file, or the client rejecting the record), auth falls through to the
login path: the whole run equals the login run started from the
post-restore state, the restore attempt leaves the session file
untouched, and exactly one login call is made. -/
theorem c5_restore_failure_recoverable (env : ClientEnv) (st : St)
    (h : (restore_session env st).1 ≠ Except.ok true) :
    auth env st = login env (restore_session env st).2 ∧
    (restore_session env st).2.file = st.file ∧
    loginCalls (auth env st).2.trace = loginCalls st.trace + 1 := by
  have hal := auth_eq_login_of_restore_ne env st h
  refine ⟨hal, restore_session_file_eq env st, ?_⟩
  rw [hal, login_trace_eq, restore_session_trace_eq, loginCalls_append, loginCalls_append,
    loginCalls_restoreCall, loginCalls_loginCall]

/-- C5 witness: the recoverable-restore theorem discharged at a run
whose session file holds unparsable bytes. -/
theorem c5_witness :
    (restore_session envLoginFail stJunk).1 ≠ Except.ok true ∧
    (auth envLoginFail stJunk = login envLoginFail (restore_session envLoginFail stJunk).2 ∧
      (restore_session envLoginFail stJunk).2.file = stJunk.file ∧
      loginCalls (auth envLoginFail stJunk).2.trace = loginCalls stJunk.trace + 1) := by
  have hne : (restore_session envLoginFail stJunk).1 ≠ Except.ok true := by
    simp [show (restore_session envLoginFail stJunk).1 =
      Except.error AppError.parseSessionYaml from rfl]
  exact ⟨hne, c5_restore_failure_recoverable envLoginFail stJunk hne⟩

/-- C6: restore and login are mutually exclusive within one auth call:
the number of login invocations added by auth is zero when restore
succeeds and exactly one otherwise — in particular a successful restore
triggers no login, and a failed login is never retried. -/
theorem c6_restore_login_exclusive (env : ClientEnv) (st : St) :
    loginCalls (auth env st).2.trace =
      loginCalls st.trace +
        (match (restore_session env st).1 with
          | .ok true => 0
          | .ok false => 1
          | .error _ => 1) := by
  rcases hr : restore_session env st with ⟨r, st1⟩
  have htr : st1.trace = st.trace ++ [Action.restoreCall] := by
    have h := restore_session_trace_eq env st
    rw [hr] at h
    exact h
  have hst1 : loginCalls st1.trace = loginCalls st.trace := by
    rw [htr, loginCalls_append, loginCalls_restoreCall]
    omega
  unfold auth
  rw [hr]
  cases r with
  | ok b =>
    cases b with
    | true =>
      dsimp only
      rw [hst1]
      omega
    | false =>
      dsimp only
      rw [login_trace_eq, loginCalls_append, loginCalls_loginCall, hst1]
  | error e =>
    dsimp only
    rw [login_trace_eq, loginCalls_append, loginCalls_loginCall, hst1]

/-- C7: in the bounded fan-in model, any complete execution (all
producers drained, channel drained) delivers to the Controller exactly
N times M events, and the delivered multiset equals the produced
multiset — no loss and no duplication — for every capacity, including
capacities smaller and larger than N times M; a produce step requires
free capacity, so a full channel blocks the producer and nothing is
ever dropped. -/
theorem c7_fanin_exact_delivery {N M cap : Nat} (init final : FanIn N)
    (hpend : ∀ i, (init.pending i).length = M)
    (hchan : init.chan = []) (hcons : init.consumed = [])
    (hrun : Relation.ReflTransGen (FanStep cap) init final)
    (hdone : ∀ i, final.pending i = []) (hdrained : final.chan = []) :
    final.consumed.length = N * M ∧
      (↑final.consumed : Multiset (Fin N × Nat)) = pendingMS init := by
  have htot := fanRun_total hrun
  have hpf : pendingMS final = 0 := by
    unfold pendingMS
    refine Finset.sum_eq_zero fun i _ => ?_
    rw [hdone i]
    simp
  have hms : (↑final.consumed : Multiset (Fin N × Nat)) = pendingMS init := by
    have h1 : totalMS final = ↑final.consumed := by
      unfold totalMS
      rw [hpf, hdrained]
      simp
    have h2 : totalMS init = pendingMS init := by
      unfold totalMS
      rw [hchan, hcons]
      simp
    rw [← h1, htot, h2]
  refine ⟨?_, hms⟩
  have hcard : Multiset.card (↑final.consumed : Multiset (Fin N × Nat)) =
      final.consumed.length := Multiset.coe_card _
  rw [← hcard, hms]
  unfold pendingMS
  have hc1 : Multiset.card
      (Finset.univ.sum fun i => Multiset.map (fun x => (i, x)) (↑(init.pending i) : Multiset Nat)) =
      Finset.univ.sum fun i =>
        Multiset.card (Multiset.map (fun x => (i, x)) (↑(init.pending i) : Multiset Nat)) :=
    map_sum (cardAddHom (Fin N × Nat))
      (fun i => Multiset.map (fun x => (i, x)) (↑(init.pending i) : Multiset Nat)) Finset.univ
  have hc2 : (Finset.univ.sum fun i =>
      Multiset.card (Multiset.map (fun x => (i, x)) (↑(init.pending i) : Multiset Nat))) =
      Finset.univ.sum fun _ : Fin N => M := by
    refine Finset.sum_congr rfl fun i _ => ?_
    rw [Multiset.card_map, Multiset.coe_card, hpend i]
  rw [hc1, hc2, Finset.sum_const, Finset.card_univ, Fintype.card_fin, smul_eq_mul]

/-- C7 witness: the delivery theorem discharged on a concrete complete
run with two producers, one item each, and capacity one. -/
theorem c7_witness :
    fanS4.consumed.length = 2 * 1 ∧
    (↑fanS4.consumed : Multiset (Fin 2 × Nat)) = pendingMS fanInit :=
  c7_fanin_exact_delivery fanInit fanS4 (by decide) rfl rfl fanChain (by decide) rfl

/-- C8: if the login call succeeds but the session held by the client
is not of the Matrix kind, and restore did not succeed, then establish
fails at once with the unknownSessionKind error, makes exactly one
login call, and leaves the session file unchanged. -/
theorem c8_unsupported_session_kind (env : ClientEnv) (st : St)
    (h1 : env.loginOk = true) (h2 : env.sessionAfterLogin = some .other)
    (h3 : (restore_session env st).1 ≠ Except.ok true) :
    (auth env st).1 = Outcome.err AppError.unknownSessionKind ∧
    loginCalls (auth env st).2.trace = loginCalls st.trace + 1 ∧
    (auth env st).2.file = st.file := by
  have hal := auth_eq_login_of_restore_ne env st h3
  have hlu := login_unknown_kind_eq env (restore_session env st).2 h1 h2
  rw [hal, hlu]
  refine ⟨rfl, ?_, ?_⟩
  · dsimp only
    rw [restore_session_trace_eq, loginCalls_append, loginCalls_append,
      loginCalls_restoreCall, loginCalls_loginCall]
  · simpa using restore_session_file_eq env st

/-- C8 witness: the unsupported-session-kind theorem discharged at a
concrete run with no prior session file. -/
theorem c8_witness :
    envOther.loginOk = true ∧
    envOther.sessionAfterLogin = some AuthSession.other ∧
    (restore_session envOther st0).1 ≠ Except.ok true ∧
    ((auth envOther st0).1 = Outcome.err AppError.unknownSessionKind ∧
      loginCalls (auth envOther st0).2.trace = loginCalls st0.trace + 1 ∧
      (auth envOther st0).2.file = st0.file) := by
  have hne : (restore_session envOther st0).1 ≠ Except.ok true := by
    simp [show (restore_session envOther st0).1 = Except.ok false from rfl]
  exact ⟨rfl, rfl, hne, c8_unsupported_session_kind envOther st0 rfl rfl hne⟩

/-- C9: the session record written on a successful login round-trips:
decoding its encoding returns the same record, the login run leaves
exactly that encoding in the session file, and a fresh auth run over
that file (with a client that accepts the record) authenticates via
restore with zero login calls, restoring the same session. -/
theorem c9_session_roundtrip (env envR : ClientEnv) (st : St) (s : MatrixSession)
    (h1 : env.loginOk = true) (h2 : env.sessionAfterLogin = some (.Matrix s))
    (h3 : env.writeOk = true) (h4 : envR.readOk = true)
    (h5 : envR.restoreAccepts s = true) :
    decodeSession (encodeSession s) = some s ∧
    (login env st).2.file = some (encodeSession s) ∧
    (auth envR ⟨(login env st).2.file, none, []⟩).1 = Outcome.ok () ∧
    loginCalls (auth envR ⟨(login env st).2.file, none, []⟩).2.trace = 0 ∧
    (auth envR ⟨(login env st).2.file, none, []⟩).2.clientSession = some (.Matrix s) := by
  have hfile : (login env st).2.file = some (encodeSession s) := by
    rw [login_write_ok_eq env st s h1 h2 h3]
  have hrestore : restore_session envR ⟨some (encodeSession s), none, []⟩ =
      (.ok true, ⟨some (encodeSession s), some (.Matrix s), [Action.restoreCall]⟩) := by
    simp [restore_session, h4, h5, decodeSession_encodeSession]
  have hauth : auth envR ⟨some (encodeSession s), none, []⟩ =
      (.ok (), ⟨some (encodeSession s), some (.Matrix s), [Action.restoreCall]⟩) := by
    unfold auth
    rw [hrestore]
  rw [hfile]
  refine ⟨decodeSession_encodeSession s, rfl, ?_, ?_, ?_⟩
  · rw [hauth]
  · rw [hauth]
    exact loginCalls_restoreCall
  · rw [hauth]

/-- C9 witness: the round-trip theorem discharged at the sample session
with a write-succeeding login run followed by a restore run. -/
theorem c9_witness :
    envLoginOk.loginOk = true ∧
    envLoginOk.sessionAfterLogin = some (.Matrix sampleSession) ∧
    envLoginOk.writeOk = true ∧
    envRestore.readOk = true ∧
    envRestore.restoreAccepts sampleSession = true ∧
    (decodeSession (encodeSession sampleSession) = some sampleSession ∧
      (login envLoginOk st0).2.file = some (encodeSession sampleSession) ∧
      (auth envRestore ⟨(login envLoginOk st0).2.file, none, []⟩).1 = Outcome.ok () ∧
      loginCalls (auth envRestore ⟨(login envLoginOk st0).2.file, none, []⟩).2.trace = 0 ∧
      (auth envRestore ⟨(login envLoginOk st0).2.file, none, []⟩).2.clientSession =
        some (.Matrix sampleSession)) :=
  ⟨rfl, rfl, rfl, rfl, rfl,
    c9_session_roundtrip envLoginOk envRestore st0 sampleSession rfl rfl rfl rfl rfl⟩

/-- C10: for the two event-handler streams (room messages and
verification requests), when the channel consumer accepts only k sends,
the first k items are delivered in order, every later item is dropped
with one warning each, and every stream item is still handled — the
handler run never terminates early on channel closure. -/
theorem c10_handlers_survive_closure (ms : List SyncRoomMessage)
    (vr : List VerificationRequest) (k1 k2 : Nat) :
    ((sync_room_handler ms (some k1)).1 = (ms.take k1).map Event.SyncRoom ∧
      (sync_room_handler ms (some k1)).2 = ms.length - k1 ∧
      (sync_room_handler ms (some k1)).1.length + (sync_room_handler ms (some k1)).2 =
        ms.length) ∧
    ((verification_request_handler vr (some k2)).1 =
        (vr.take k2).map Event.VerificationRequest ∧
      (verification_request_handler vr (some k2)).2 = vr.length - k2 ∧
      (verification_request_handler vr (some k2)).1.length +
          (verification_request_handler vr (some k2)).2 = vr.length) := by
  have h1 := handlerRun_some Event.SyncRoom ms k1
  have h2 := handlerRun_some Event.VerificationRequest vr k2
  constructor
  · refine ⟨by rw [sync_room_handler, h1], by rw [sync_room_handler, h1], ?_⟩
    rw [sync_room_handler, h1]
    simp only [List.length_map, List.length_take]
    omega
  · refine ⟨by rw [verification_request_handler, h2],
      by rw [verification_request_handler, h2], ?_⟩
    rw [verification_request_handler, h2]
    simp only [List.length_map, List.length_take]
    omega

end MatrixClient
